import Mathlib

/-!
Verification of the authentication core of the oalr-backend repository:
credential verification (`UserService.validateUserCredentials`,
`UserService.createOAuthUser`), access-token issuance
(`AuthService.createTokenForUser`), the refresh-token store and rotator
(`AuthService.createRefreshToken`, `validateRefreshToken`,
`revokeRefreshToken`, `cleanupExpiredTokens`), and the HTTP handlers
`AuthController.logout` and `AuthController.googleAuthRedirect`.

The persistence layer is modelled as an explicit list of rows passed in and
out of each operation; the clock is an explicit `now : Int` in milliseconds
(JavaScript `Date` arithmetic); the external JWT collaborator is modelled by
an inductive `Token` type whose `signed` constructor records the claims and
the expiry the signer embedded.
-/

namespace Oalr

/-- One minute in milliseconds. -/
def minuteMs : Int := 60 * 1000

/-- One day in milliseconds. -/
def dayMs : Int := 24 * 60 * 60 * 1000

/-- Access-token lifetime: the service signs with `expiresIn: '15m'`. -/
def accessTokenTtlMs : Int := 15 * minuteMs

/-- Refresh-token lifetime: the service signs with `expiresIn: '30d'` and
stores `expiresAt = now + 30 days` (`expiresAt.setDate(getDate() + 30)`). -/
def refreshTokenTtlMs : Int := 30 * dayMs

/-- Claims appearing in the payloads the service signs: `{username, sub}` for
access tokens and `{sub, type: 'refresh'}` for refresh tokens. Fields not
present in a given payload are `none`. -/
structure JwtClaims where
  sub : Nat
  username : Option String := none
  typ : Option String := none
deriving DecidableEq, Repr

/-- Model of the external `JwtService` token string: a well-signed token
carries its claims and the absolute expiry instant the signer embedded;
anything else is an unverifiable string. Equality of `Token` values models
equality of the underlying token strings. -/
inductive Token where
  | signed (claims : JwtClaims) (exp : Int)
  | malformed (s : String)
deriving DecidableEq, Repr

/-- `jwtService.sign(payload, {expiresIn: ttl})` at instant `now`. -/
def jwtSign (claims : JwtClaims) (now ttl : Int) : Token :=
  .signed claims (now + ttl)

/-- `jwtService.verify(token)` at instant `now`: succeeds with the claims
exactly when the token is well signed and not past its embedded expiry. -/
def jwtVerify (t : Token) (now : Int) : Option JwtClaims :=
  match t with
  | .signed c exp => if exp < now then none else some c
  | .malformed _ => none

/-- The `User` entity (src/modules/user/entities/user.entity.ts):
`hashedPassword` is nullable, `isOauth` defaults to false, `isActive`
defaults to true. -/
structure User where
  id : Nat
  firstName : String
  lastName : String
  email : String
  hashedPassword : Option String
  isOauth : Bool
  isActive : Bool
  joinedDate : Int := 0
  bio : Option String := none
deriving DecidableEq, Repr

/-- Model of the external bcrypt collaborator's digest: a real bcrypt digest
is a 60-character string beginning with a `$2b$10$`-style prefix and is in
particular never the empty string. -/
def bcryptHash (password : String) : String :=
  "$2b$10$" ++ password

/-- Model of `bcrypt.compare(password, hash)`: succeeds exactly when `hash`
is the bcrypt digest of `password`. Since no digest is the empty string,
comparison against `''` fails for every password, as real bcrypt does. -/
def bcryptCompare (password hash : String) : Bool :=
  hash == bcryptHash password

/-- `UserService.getUserByEmail`: `findOne({where: {email}})` over the user
table (email is unique, so the first match is the match). -/
def getUserByEmail (users : List User) (email : String) : Option User :=
  users.find? (fun u => u.email == email)

/-- `UserService.validateUserCredentials(email, password)` — read-only: it
takes the store and performs no write. Every `Except.error msg` models
`throw new UnauthorizedException(msg)`. -/
def validateUserCredentials (users : List User) (email password : String) :
    Except String User :=
  match getUserByEmail users email with
  | none => .error "Invalid credentials"
  | some user =>
    if !user.isActive then .error "Account is inactive"
    else if !(bcryptCompare password (user.hashedPassword.getD "")) then
      .error "Invalid credentials"
    else .ok user

/-- `OAuthUserDto` (src/modules/user/dto/oauth-user-dto.ts). -/
structure OAuthUserDto where
  accessToken : String
  email : String
  firstName : String
  lastName : String
  picture : String
deriving DecidableEq, Repr

/-- `UserService.createOAuthUser`: builds the row from the profile with
`hashedPassword: null` and `isOauth: true`; `isActive` takes its column
default `true`. `freshId` is the id the database generates on save. -/
def createOAuthUser (profile : OAuthUserDto) (freshId : Nat) : User :=
  { id := freshId
    firstName := profile.firstName
    lastName := profile.lastName
    email := profile.email
    hashedPassword := none
    isOauth := true
    isActive := true }

/-- The `RefreshToken` entity (src/auth/entities/refresh-token.entity.ts). -/
structure RefreshToken where
  id : Nat
  token : Token
  userId : Nat
  expiresAt : Int
  createdAt : Int
  isRevoked : Bool
deriving DecidableEq, Repr

/-- The refresh-token table, as the ordered list of its rows. -/
abbrev RTStore := List RefreshToken

/-- `refreshTokenRepository.update(criteria, {isRevoked: true})`: sets the
flag on every row matching the criteria and touches nothing else. -/
def markRevokedWhere (p : RefreshToken → Bool) (store : RTStore) : RTStore :=
  store.map (fun r => if p r then { r with isRevoked := true } else r)

/-- `AuthService.createRefreshToken(userId)`: revoke all rows with
`{userId, isRevoked: false}`, sign `{sub: userId, type: 'refresh'}` with a
30-day expiry, insert a row with that token, `expiresAt = now + 30d` and the
column defaults `createdAt = now`, `isRevoked = false`; return the token.
`freshId` is the generated row id. -/
def createRefreshToken (userId freshId : Nat) (now : Int) (store : RTStore) :
    Token × RTStore :=
  let revoked := markRevokedWhere (fun r => r.userId == userId && !r.isRevoked) store
  let token := jwtSign { sub := userId, typ := some "refresh" } now refreshTokenTtlMs
  let row : RefreshToken :=
    { id := freshId
      token := token
      userId := userId
      expiresAt := now + refreshTokenTtlMs
      createdAt := now
      isRevoked := false }
  (token, revoked ++ [row])

/-- `findOne({where: {token, isRevoked: false}})`: the first row holding
exactly this token string and not revoked. -/
def findActiveByToken (t : Token) (store : RTStore) : Option RefreshToken :=
  store.find? (fun r => r.token == t && !r.isRevoked)

/-- `AuthService.validateRefreshToken(token)`: verify the signature, look the
row up by exact token string with `isRevoked = false`, then check the stored
`expiresAt`; on a stale row write `isRevoked := true` before failing. Returns
the result (the owning user's id, reached through the row's `user` relation)
together with the possibly-updated store. -/
def validateRefreshToken (t : Token) (now : Int) (store : RTStore) :
    Except String Nat × RTStore :=
  match jwtVerify t now with
  | none => (.error "Invalid refresh token", store)
  | some _ =>
    match findActiveByToken t store with
    | none => (.error "Refresh token not found or revoked", store)
    | some row =>
      if row.expiresAt < now then
        (.error "Refresh token expired", markRevokedWhere (fun r => r.id == row.id) store)
      else
        (.ok row.userId, store)

/-- `AuthService.revokeRefreshToken(token)`: `update({token}, {isRevoked:
true})`. Total — it throws nothing. -/
def revokeRefreshToken (t : Token) (store : RTStore) : RTStore :=
  markRevokedWhere (fun r => r.token == t) store

/-- `AuthService.cleanupExpiredTokens()`: `delete({expiresAt: LessThan(new
Date())})`. -/
def cleanupExpiredTokens (now : Int) (store : RTStore) : RTStore :=
  store.filter (fun r => !(r.expiresAt < now))

/-- `AuthController.logout`: revoke the cookie's token when a cookie is
present, clear the cookie, and answer `{message: 'Logout successful'}`;
without a cookie the store is not touched. Returns the response body's
message and the resulting store. -/
def logout (cookie : Option Token) (store : RTStore) : String × RTStore :=
  match cookie with
  | some t => ("Logout successful", revokeRefreshToken t store)
  | none => ("Logout successful", store)

/-- The `JwtPayload` user projection returned by `createTokenForUser`. -/
structure JwtUserInfo where
  id : Nat
  email : String
  firstName : String
  lastName : String
deriving DecidableEq, Repr

/-- The `JwtPayload` response shape `{accessToken, user}`. -/
structure JwtPayload where
  accessToken : Token
  user : JwtUserInfo
deriving DecidableEq, Repr

/-- `AuthService.createTokenForUser(user)`: sign `{username: user.email,
sub: user.id}` with `expiresIn: '15m'` and project the user to
`{id, email, firstName, lastName}`. -/
def createTokenForUser (user : User) (now : Int) : JwtPayload :=
  { accessToken := jwtSign { sub := user.id, username := some user.email } now accessTokenTtlMs
    user :=
      { id := user.id
        email := user.email
        firstName := user.firstName
        lastName := user.lastName } }

/-- `AuthService.validateOAuthLogin(profile)`: fetch the user by the
profile's email, create an OAuth user when absent, and return the signed
access token (a signed token is never the empty string, so the
`TokenCreationException` guard cannot fire in this model). Returns the token
and the resulting user table. -/
def validateOAuthLogin (profile : OAuthUserDto) (users : List User)
    (freshId : Nat) (now : Int) : Token × List User :=
  match getUserByEmail users profile.email with
  | some user => ((createTokenForUser user now).accessToken, users)
  | none =>
    let user := createOAuthUser profile freshId
    ((createTokenForUser user now).accessToken, users ++ [user])

/-- What `AuthController.googleAuthRedirect` sends back: the redirect target
base, the `?token=` query parameter when one is appended, and the
`refreshToken` cookie when one is set. -/
structure OAuthRedirectResponse where
  redirectBase : String
  tokenInUrl : Option Token
  refreshCookie : Option Token
deriving DecidableEq, Repr

/-- `AuthController.googleAuthRedirect` as shipped
(src/auth/auth.controller.ts): obtain the access token from
`validateOAuthLogin` and redirect to
`` `${frontendUrl}/authenticated?token=${token}` ``; no cookie is set and the
refresh-token store is not touched. -/
def googleAuthRedirect (profile : OAuthUserDto) (users : List User)
    (rtStore : RTStore) (freshId : Nat) (now : Int) (frontendUrl : String) :
    OAuthRedirectResponse × List User × RTStore :=
  let result := validateOAuthLogin profile users freshId now
  ({ redirectBase := frontendUrl ++ "/authenticated"
     tokenInUrl := some result.1
     refreshCookie := none },
   result.2, rtStore)

/-- Number of non-revoked refresh-token rows a user owns. -/
def activeCount (u : Nat) (store : RTStore) : Nat :=
  (store.filter (fun r => r.userId == u && !r.isRevoked)).length

/-- One `createRefreshToken` call of a sequence: the user logging in, the
generated row id, and the instant of the call. -/
structure IssueCall where
  userId : Nat
  freshId : Nat
  now : Int
deriving DecidableEq, Repr

/-- A finite sequence of `createRefreshToken` calls executed in order. -/
def issueSeq (calls : List IssueCall) (store : RTStore) : RTStore :=
  calls.foldl (fun s c => (createRefreshToken c.userId c.freshId c.now s).2) store

theorem activeCount_append (u : Nat) (s t : RTStore) :
    activeCount u (s ++ t) = activeCount u s + activeCount u t := by
  simp [activeCount, List.filter_append]

theorem activeCount_markRevokedAll (u : Nat) (store : RTStore) :
    activeCount u (markRevokedWhere (fun r => r.userId == u && !r.isRevoked) store) = 0 := by
  unfold activeCount markRevokedWhere
  rw [List.length_eq_zero, List.filter_eq_nil_iff]
  intro a ha
  rcases List.mem_map.mp ha with ⟨r, _, rfl⟩
  by_cases h : (r.userId == u && !r.isRevoked) = true
  · simp [h]
  · simp only [if_neg h]
    simpa using h

theorem activeCount_markRevokedWhere (w : Nat) (p : RefreshToken → Bool) (store : RTStore)
    (hp : ∀ r ∈ store, p r = true → (r.userId == w) = false) :
    activeCount w (markRevokedWhere p store) = activeCount w store := by
  induction store with
  | nil => rfl
  | cons r rest ih =>
    have hr := hp r (by simp)
    have hrest : ∀ x ∈ rest, p x = true → (x.userId == w) = false :=
      fun x hx => hp x (List.mem_cons_of_mem _ hx)
    have ihr := ih hrest
    simp only [markRevokedWhere, List.map_cons, activeCount, List.filter_cons] at ihr ⊢
    by_cases hpr : p r = true
    · simp only [if_pos hpr]
      have hw : (r.userId == w) = false := hr hpr
      simp [hw, ihr]
    · simp only [if_neg hpr]
      by_cases hw : (r.userId == w && !r.isRevoked) = true
      · simp [hw, ihr]
      · simp only [Bool.not_eq_true] at hw
        simp [hw, ihr]

theorem activeCount_createRefreshToken_self (u fid : Nat) (now : Int) (store : RTStore) :
    activeCount u (createRefreshToken u fid now store).2 = 1 := by
  unfold createRefreshToken
  rw [activeCount_append, activeCount_markRevokedAll]
  simp [activeCount, List.filter]

theorem activeCount_createRefreshToken_other (u w fid : Nat) (now : Int) (store : RTStore)
    (h : w ≠ u) :
    activeCount w (createRefreshToken u fid now store).2 = activeCount w store := by
  unfold createRefreshToken
  rw [activeCount_append, activeCount_markRevokedWhere]
  · have hu : (u == w) = false := by
      simp only [beq_eq_false_iff_ne, ne_eq]
      exact fun hc => h hc.symm
    simp [activeCount, List.filter, hu]
  · intro r _ hpr
    have hru : r.userId = u := by
      have := (Bool.and_eq_true _ _).mp hpr |>.1
      exact beq_iff_eq.mp this
    simp only [beq_eq_false_iff_ne, ne_eq, hru]
    exact fun hc => h hc.symm

/-- C1: starting from a store with no rows for user `U`, any finite sequence
of `createRefreshToken` calls leaves at most one non-revoked row for `U`:
each issue first revokes every active row of its user and appends exactly one
active row. -/
theorem createRefreshToken_rotation_invariant (U : Nat) (calls : List IssueCall)
    (store : RTStore)
    (h0 : activeCount U store = 0) :
    activeCount U (issueSeq calls store) ≤ 1 := by
  have step : ∀ (s : RTStore) (c : IssueCall), activeCount U s ≤ 1 →
      activeCount U (createRefreshToken c.userId c.freshId c.now s).2 ≤ 1 := by
    intro s c hs
    by_cases hc : U = c.userId
    · subst hc
      rw [activeCount_createRefreshToken_self]
    · rw [activeCount_createRefreshToken_other _ _ _ _ _ hc]
      exact hs
  have main : ∀ (cs : List IssueCall) (s : RTStore), activeCount U s ≤ 1 →
      activeCount U (issueSeq cs s) ≤ 1 := by
    intro cs
    induction cs with
    | nil => intro s hs; exact hs
    | cons c rest ih =>
      intro s hs
      exact ih _ (step s c hs)
  exact main calls store (by omega)

/-- C1 witness: two consecutive issues for user 1 from the empty store. -/
theorem createRefreshToken_rotation_invariant_witness :
    activeCount 1 ([] : RTStore) = 0 ∧
      activeCount 1 (issueSeq [⟨1, 1, 0⟩, ⟨1, 2, 5⟩] []) ≤ 1 :=
  ⟨by decide, createRefreshToken_rotation_invariant 1 [⟨1, 1, 0⟩, ⟨1, 2, 5⟩] [] (by decide)⟩

/-- C10: `createRefreshToken u` rewrites the store to the pointwise image
that flips `isRevoked` on exactly the previously-active rows of `u` (every
other row, and every other field, is untouched) followed by the single
inserted row, which belongs to `u` and is active; in particular rows of
other users and already-revoked rows of `u` survive unchanged. -/
theorem createRefreshToken_frame (u fid : Nat) (now : Int) (store : RTStore) :
    ∃ newRow : RefreshToken,
      (createRefreshToken u fid now store).2 =
        store.map (fun r => if r.userId = u ∧ r.isRevoked = false
                            then { r with isRevoked := true } else r) ++ [newRow] ∧
      newRow.userId = u ∧ newRow.isRevoked = false ∧
      (∀ r ∈ store, r.userId ≠ u → r ∈ (createRefreshToken u fid now store).2) ∧
      (∀ r ∈ store, r.isRevoked = true → r ∈ (createRefreshToken u fid now store).2) := by
  have hmap : markRevokedWhere (fun r => r.userId == u && !r.isRevoked) store =
      store.map (fun r => if r.userId = u ∧ r.isRevoked = false
                          then { r with isRevoked := true } else r) := by
    unfold markRevokedWhere
    apply List.map_congr_left
    intro r _
    by_cases hc : r.userId = u ∧ r.isRevoked = false
    · rw [if_pos _, if_pos hc]
      simp [hc.1, hc.2]
    · rw [if_neg _, if_neg hc]
      intro hb
      apply hc
      have hb' := (Bool.and_eq_true _ _).mp hb
      exact ⟨beq_iff_eq.mp hb'.1, by simpa using hb'.2⟩
  refine ⟨⟨fid, jwtSign { sub := u, typ := some "refresh" } now refreshTokenTtlMs, u,
      now + refreshTokenTtlMs, now, false⟩, ?_, rfl, rfl, ?_, ?_⟩
  · unfold createRefreshToken
    rw [hmap]
  · intro r hr hru
    unfold createRefreshToken
    apply List.mem_append_left
    unfold markRevokedWhere
    refine List.mem_map.mpr ⟨r, hr, ?_⟩
    rw [if_neg]
    simp [hru]
  · intro r hr hrev
    unfold createRefreshToken
    apply List.mem_append_left
    unfold markRevokedWhere
    refine List.mem_map.mpr ⟨r, hr, ?_⟩
    rw [if_neg]
    simp [hrev]

/-- C10 witness: a two-user store; user 2's row and user 1's revoked row
survive the issue for user 1. -/
theorem createRefreshToken_frame_witness :
    ∃ newRow : RefreshToken,
      (createRefreshToken 1 7 0
          [⟨1, .malformed "a", 1, 9, 0, true⟩, ⟨2, .malformed "b", 2, 9, 0, false⟩]).2 =
        ([⟨1, .malformed "a", 1, 9, 0, true⟩,
          ⟨2, .malformed "b", 2, 9, 0, false⟩] : RTStore).map
          (fun r => if r.userId = 1 ∧ r.isRevoked = false
                    then { r with isRevoked := true } else r) ++ [newRow] ∧
      newRow.userId = 1 ∧ newRow.isRevoked = false ∧
      (∀ r ∈ ([⟨1, .malformed "a", 1, 9, 0, true⟩,
               ⟨2, .malformed "b", 2, 9, 0, false⟩] : RTStore), r.userId ≠ 1 →
        r ∈ (createRefreshToken 1 7 0
          [⟨1, .malformed "a", 1, 9, 0, true⟩, ⟨2, .malformed "b", 2, 9, 0, false⟩]).2) ∧
      (∀ r ∈ ([⟨1, .malformed "a", 1, 9, 0, true⟩,
               ⟨2, .malformed "b", 2, 9, 0, false⟩] : RTStore), r.isRevoked = true →
        r ∈ (createRefreshToken 1 7 0
          [⟨1, .malformed "a", 1, 9, 0, true⟩, ⟨2, .malformed "b", 2, 9, 0, false⟩]).2) :=
  createRefreshToken_frame 1 7 0
    [⟨1, .malformed "a", 1, 9, 0, true⟩, ⟨2, .malformed "b", 2, 9, 0, false⟩]

theorem markRevokedWhere_mem_iff (p : RefreshToken → Bool) (store : RTStore)
    (x : RefreshToken) :
    x ∈ markRevokedWhere p store ↔
      ∃ y ∈ store, x = if p y then { y with isRevoked := true } else y := by
  unfold markRevokedWhere
  constructor
  · intro hx
    rcases List.mem_map.mp hx with ⟨y, hy, rfl⟩
    exact ⟨y, hy, rfl⟩
  · rintro ⟨y, hy, rfl⟩
    exact List.mem_map.mpr ⟨y, hy, rfl⟩

theorem findActiveByToken_eq_none_iff (t : Token) (store : RTStore) :
    findActiveByToken t store = none ↔
      ∀ r ∈ store, ¬(r.token = t ∧ r.isRevoked = false) := by
  unfold findActiveByToken
  rw [List.find?_eq_none]
  constructor
  · intro h r hr hc
    exact h r hr (by simp [hc.1, hc.2])
  · intro h r hr hb
    have hb' := (Bool.and_eq_true _ _).mp hb
    exact h r hr ⟨beq_iff_eq.mp hb'.1, by simpa using hb'.2⟩

/-- C2: `validateRefreshToken` checks the signature first, then the store
lookup by exact token string with `isRevoked = false`, then the stored
expiry, failing with the respective messages, and succeeds with the owning
user's id exactly when the signature verifies and the active row found for
the token string is not past its stored expiry. -/
theorem validateRefreshToken_error_cases (t : Token) (now : Int) (store : RTStore) :
    (jwtVerify t now = none →
      (validateRefreshToken t now store).1 = .error "Invalid refresh token") ∧
    ((jwtVerify t now).isSome →
      (∀ r ∈ store, ¬(r.token = t ∧ r.isRevoked = false)) →
      (validateRefreshToken t now store).1 = .error "Refresh token not found or revoked") ∧
    (∀ r, (jwtVerify t now).isSome → findActiveByToken t store = some r →
      r.expiresAt < now →
      (validateRefreshToken t now store).1 = .error "Refresh token expired") ∧
    (∀ uid, (validateRefreshToken t now store).1 = .ok uid ↔
      ((jwtVerify t now).isSome ∧
        ∃ r, findActiveByToken t store = some r ∧ ¬(r.expiresAt < now) ∧ uid = r.userId)) := by
  refine ⟨?_, ?_, ?_, ?_⟩
  · intro hv
    simp [validateRefreshToken, hv]
  · intro hv hnone
    obtain ⟨p, hp⟩ := Option.isSome_iff_exists.mp hv
    have hfind : findActiveByToken t store = none :=
      (findActiveByToken_eq_none_iff t store).mpr hnone
    simp [validateRefreshToken, hp, hfind]
  · intro r hv hf hexp
    obtain ⟨p, hp⟩ := Option.isSome_iff_exists.mp hv
    simp [validateRefreshToken, hp, hf, hexp]
  · intro uid
    constructor
    · intro hok
      unfold validateRefreshToken at hok
      rcases hov : jwtVerify t now with _ | p <;> rw [hov] at hok <;> dsimp only at hok
      · simp at hok
      · rcases hf : findActiveByToken t store with _ | r <;> rw [hf] at hok <;>
          dsimp only at hok
        · simp at hok
        · by_cases hexp : r.expiresAt < now
          · rw [if_pos hexp] at hok
            simp at hok
          · rw [if_neg hexp] at hok
            simp only [Except.ok.injEq] at hok
            exact ⟨rfl, r, rfl, hexp, hok.symm⟩
    · rintro ⟨hv, r, hf, hexp, rfl⟩
      obtain ⟨p, hp⟩ := Option.isSome_iff_exists.mp hv
      simp [validateRefreshToken, hp, hf, hexp]

/-- C2 witness: a malformed cookie string fails on the signature branch. -/
theorem validateRefreshToken_error_cases_witness :
    (validateRefreshToken (.malformed "garbage") 0 []).1 = .error "Invalid refresh token" :=
  (validateRefreshToken_error_cases (.malformed "garbage") 0 []).1 (by decide)

/-- C3: on an active row whose stored `expiresAt` has passed (the token being
the row's, uniquely), `validateRefreshToken` fails with the expiry message
and writes `isRevoked := true` on that row; a repeated call with the same
token then fails on the not-found-or-revoked branch and leaves the store
unchanged, so the revocation write is idempotent. -/
theorem validateRefreshToken_expired_revokes (t : Token) (now : Int) (store : RTStore)
    (r : RefreshToken)
    (hv : (jwtVerify t now).isSome)
    (hf : findActiveByToken t store = some r)
    (hexp : r.expiresAt < now)
    (huniq : ∀ x ∈ store, x.token = t → x.id = r.id) :
    (validateRefreshToken t now store).1 = .error "Refresh token expired" ∧
    (∀ x ∈ (validateRefreshToken t now store).2, x.id = r.id → x.isRevoked = true) ∧
    validateRefreshToken t now (validateRefreshToken t now store).2 =
      (.error "Refresh token not found or revoked", (validateRefreshToken t now store).2) := by
  obtain ⟨p, hp⟩ := Option.isSome_iff_exists.mp hv
  have hrun : validateRefreshToken t now store =
      (.error "Refresh token expired",
        markRevokedWhere (fun x => x.id == r.id) store) := by
    simp [validateRefreshToken, hp, hf, hexp]
  have hrevoked : ∀ x ∈ markRevokedWhere (fun x => x.id == r.id) store,
      x.id = r.id → x.isRevoked = true := by
    intro x hx hid
    rcases (markRevokedWhere_mem_iff _ _ _).mp hx with ⟨y, _, rfl⟩
    by_cases hyy : (y.id == r.id) = true
    · simp [hyy]
    · rw [if_neg hyy] at hid ⊢
      exact absurd (by simp [hid]) hyy
  have hnone : findActiveByToken t (markRevokedWhere (fun x => x.id == r.id) store) = none := by
    rw [findActiveByToken_eq_none_iff]
    intro x hx hc
    rcases (markRevokedWhere_mem_iff _ _ _).mp hx with ⟨y, hy, rfl⟩
    by_cases hyy : (y.id == r.id) = true
    · rw [if_pos hyy] at hc
      exact absurd hc.2 (by simp)
    · rw [if_neg hyy] at hc
      exact hyy (by simp [huniq y hy hc.1])
  refine ⟨by rw [hrun], by rw [hrun]; exact hrevoked, ?_⟩
  rw [hrun]
  simp [validateRefreshToken, hp, hnone]

/-- C3 witness: a store holding a single active row whose stored expiry (5)
is past the current time (10) while the signed claims still verify. -/
theorem validateRefreshToken_expired_revokes_witness :
    (validateRefreshToken (.signed ⟨1, none, some "refresh"⟩ 100) 10
        [⟨1, .signed ⟨1, none, some "refresh"⟩ 100, 1, 5, 0, false⟩]).1 =
      .error "Refresh token expired" ∧
    (∀ x ∈ (validateRefreshToken (.signed ⟨1, none, some "refresh"⟩ 100) 10
        [⟨1, .signed ⟨1, none, some "refresh"⟩ 100, 1, 5, 0, false⟩]).2,
      x.id = 1 → x.isRevoked = true) ∧
    validateRefreshToken (.signed ⟨1, none, some "refresh"⟩ 100) 10
        (validateRefreshToken (.signed ⟨1, none, some "refresh"⟩ 100) 10
          [⟨1, .signed ⟨1, none, some "refresh"⟩ 100, 1, 5, 0, false⟩]).2 =
      (.error "Refresh token not found or revoked",
        (validateRefreshToken (.signed ⟨1, none, some "refresh"⟩ 100) 10
          [⟨1, .signed ⟨1, none, some "refresh"⟩ 100, 1, 5, 0, false⟩]).2) :=
  validateRefreshToken_expired_revokes (.signed ⟨1, none, some "refresh"⟩ 100) 10
    [⟨1, .signed ⟨1, none, some "refresh"⟩ 100, 1, 5, 0, false⟩]
    ⟨1, .signed ⟨1, none, some "refresh"⟩ 100, 1, 5, 0, false⟩
    (by decide) (by decide) (by decide) (by decide)

theorem bcryptCompare_empty_hash (password : String) :
    bcryptCompare password "" = false := by
  unfold bcryptCompare bcryptHash
  rw [beq_eq_false_iff_ne]
  intro h
  have hlen := congrArg String.length h
  rw [String.length_append] at hlen
  have h0 : ("" : String).length = 0 := rfl
  have h7 : ("$2b$10$" : String).length = 7 := rfl
  rw [h0, h7] at hlen
  omega

/-- C4: credential validation fails with the same "Invalid credentials"
message for an unknown email and for a password mismatch, fails with the
distinct inactive-account message before the hash is ever compared, and
succeeds exactly when the user exists, is active, and the password matches
the stored hash. (The embedded `validateUserCredentials` is a pure function
of the user table: it performs no write in any branch by construction.) -/
theorem validateUserCredentials_spec (users : List User) (email password : String) :
    (getUserByEmail users email = none →
      validateUserCredentials users email password = .error "Invalid credentials") ∧
    (∀ u, getUserByEmail users email = some u → u.isActive = false →
      validateUserCredentials users email password = .error "Account is inactive") ∧
    (∀ u, getUserByEmail users email = some u → u.isActive = true →
      bcryptCompare password (u.hashedPassword.getD "") = false →
      validateUserCredentials users email password = .error "Invalid credentials") ∧
    (∀ u, validateUserCredentials users email password = .ok u ↔
      (getUserByEmail users email = some u ∧ u.isActive = true ∧
        bcryptCompare password (u.hashedPassword.getD "") = true)) ∧
    ("Account is inactive" ≠ "Invalid credentials") := by
  refine ⟨?_, ?_, ?_, ?_, by decide⟩
  · intro h
    simp [validateUserCredentials, h]
  · intro u hu hin
    simp [validateUserCredentials, hu, hin]
  · intro u hu hact hcmp
    simp [validateUserCredentials, hu, hact, hcmp]
  · intro u
    constructor
    · intro hok
      unfold validateUserCredentials at hok
      rcases hg : getUserByEmail users email with _ | v <;> rw [hg] at hok <;>
        dsimp only at hok
      · simp at hok
      · by_cases hact : v.isActive = true
        · by_cases hcmp : bcryptCompare password (v.hashedPassword.getD "") = true
          · rw [if_neg (by simp [hact]), if_neg (by simp [hcmp])] at hok
            simp only [Except.ok.injEq] at hok
            subst hok
            exact ⟨rfl, hact, hcmp⟩
          · rw [if_neg (by simp [hact]), if_pos (by simp [hcmp])] at hok
            simp at hok
        · rw [if_pos (by simp [hact])] at hok
          simp at hok
    · rintro ⟨hg, hact, hcmp⟩
      simp [validateUserCredentials, hg, hact, hcmp]

/-- C4 witness: an inactive user fails with the inactive-account message even
though the supplied password matches the stored hash. -/
theorem validateUserCredentials_spec_witness :
    validateUserCredentials
        [⟨1, "A", "B", "a@b.com", some (bcryptHash "pw"), false, false, 0, none⟩]
        "a@b.com" "pw" = .error "Account is inactive" :=
  (validateUserCredentials_spec
      [⟨1, "A", "B", "a@b.com", some (bcryptHash "pw"), false, false, 0, none⟩]
      "a@b.com" "pw").2.1
    ⟨1, "A", "B", "a@b.com", some (bcryptHash "pw"), false, false, 0, none⟩
    (by decide) rfl

/-- C6: `createOAuthUser` always produces a user with no password hash and
`isOauth = true`, and credential validation rejects every password for a
user whose stored hash is absent, since the bcrypt comparison is made
against the empty string and no digest is empty — so OAuth-only accounts can
never log in by password. -/
theorem oauthUser_cannot_password_login (profile : OAuthUserDto) (freshId : Nat) :
    (createOAuthUser profile freshId).hashedPassword = none ∧
    (createOAuthUser profile freshId).isOauth = true ∧
    (∀ (users : List User) (email password : String) (u : User),
      getUserByEmail users email = some u → u.hashedPassword = none →
      ∃ msg, validateUserCredentials users email password = .error msg) := by
  refine ⟨rfl, rfl, ?_⟩
  intro users email password u hg hnone
  by_cases hact : u.isActive = true
  · refine ⟨"Invalid credentials", ?_⟩
    have hcmp : bcryptCompare password (u.hashedPassword.getD "") = false := by
      rw [hnone]
      exact bcryptCompare_empty_hash password
    simp [validateUserCredentials, hg, hact, hcmp]
  · refine ⟨"Account is inactive", ?_⟩
    have hin : u.isActive = false := by
      simpa using hact
    simp [validateUserCredentials, hg, hin]

/-- C6 witness: the user created from a concrete Google profile cannot log
in with the password "anything". -/
theorem oauthUser_cannot_password_login_witness :
    (createOAuthUser ⟨"at", "g@gmail.com", "G", "H", "pic"⟩ 1).hashedPassword = none ∧
    (createOAuthUser ⟨"at", "g@gmail.com", "G", "H", "pic"⟩ 1).isOauth = true ∧
    ∃ msg, validateUserCredentials [createOAuthUser ⟨"at", "g@gmail.com", "G", "H", "pic"⟩ 1]
        "g@gmail.com" "anything" = .error msg :=
  ⟨(oauthUser_cannot_password_login ⟨"at", "g@gmail.com", "G", "H", "pic"⟩ 1).1,
   (oauthUser_cannot_password_login ⟨"at", "g@gmail.com", "G", "H", "pic"⟩ 1).2.1,
   (oauthUser_cannot_password_login ⟨"at", "g@gmail.com", "G", "H", "pic"⟩ 1).2.2
     [createOAuthUser ⟨"at", "g@gmail.com", "G", "H", "pic"⟩ 1]
     "g@gmail.com" "anything"
     (createOAuthUser ⟨"at", "g@gmail.com", "G", "H", "pic"⟩ 1)
     (by decide) rfl⟩

/-- C7: the access token signed by `createTokenForUser` verifies back to
claims `{sub: user.id, username: user.email}`, carries a 15-minute expiry,
and the returned user object is exactly the `{id, email, firstName,
lastName}` projection of the input user. -/
theorem createTokenForUser_roundtrip (user : User) (now : Int) :
    jwtVerify (createTokenForUser user now).accessToken now =
      some { sub := user.id, username := some user.email } ∧
    (createTokenForUser user now).accessToken =
      Token.signed { sub := user.id, username := some user.email }
        (now + accessTokenTtlMs) ∧
    accessTokenTtlMs = 15 * 60 * 1000 ∧
    (createTokenForUser user now).user =
      { id := user.id, email := user.email, firstName := user.firstName,
        lastName := user.lastName } := by
  refine ⟨?_, rfl, by decide, rfl⟩
  have hpos : ¬(now + accessTokenTtlMs < now) := by
    have h : (0:Int) < accessTokenTtlMs := by decide
    omega
  simp [createTokenForUser, jwtSign, jwtVerify, hpos]

/-- C8: `revokeRefreshToken` is idempotent and total: it marks every row
holding the token revoked, is the identity when no row matches, and `logout`
answers "Logout successful" with or without a cookie, touching the store
only through `revokeRefreshToken` and not at all when no cookie is present. -/
theorem revokeRefreshToken_idempotent_total (t : Token) (store : RTStore) :
    revokeRefreshToken t (revokeRefreshToken t store) = revokeRefreshToken t store ∧
    (∀ r ∈ revokeRefreshToken t store, r.token = t → r.isRevoked = true) ∧
    ((∀ r ∈ store, r.token ≠ t) → revokeRefreshToken t store = store) ∧
    (∀ cookie, (logout cookie store).1 = "Logout successful") ∧
    (logout none store).2 = store := by
  refine ⟨?_, ?_, ?_, ?_, rfl⟩
  · unfold revokeRefreshToken markRevokedWhere
    rw [List.map_map]
    apply List.map_congr_left
    intro r _
    by_cases h : (r.token == t) = true
    · simp [Function.comp, h]
    · simp [Function.comp, h]
  · intro r hr ht
    rcases (markRevokedWhere_mem_iff _ _ _).mp hr with ⟨y, _, rfl⟩
    by_cases hy : (y.token == t) = true
    · simp [hy]
    · rw [if_neg hy] at ht ⊢
      exact absurd (by simp [ht]) hy
  · intro hno
    unfold revokeRefreshToken markRevokedWhere
    have : ∀ r ∈ store, (if (r.token == t) = true then
        { r with isRevoked := true } else r) = r := by
      intro r hr
      rw [if_neg]
      simp only [beq_eq_false_iff_ne, ne_eq, Bool.not_eq_true]
      simp [hno r hr]
    calc store.map _ = store.map id := List.map_congr_left this
      _ = store := List.map_id store
  · intro cookie
    cases cookie <;> rfl

/-- C8 witness: revoking a token no row holds leaves a one-row store
untouched. -/
theorem revokeRefreshToken_idempotent_total_witness :
    revokeRefreshToken (.malformed "absent") [⟨1, .malformed "other", 1, 9, 0, false⟩] =
      [⟨1, .malformed "other", 1, 9, 0, false⟩] :=
  (revokeRefreshToken_idempotent_total (.malformed "absent")
      [⟨1, .malformed "other", 1, 9, 0, false⟩]).2.2.1 (by decide)

/-- C9: the expiry sweep keeps exactly the rows whose stored `expiresAt` has
not passed — every expired row is deleted regardless of `isRevoked`, and a
revoked but unexpired row survives. -/
theorem cleanupExpiredTokens_mem_iff (now : Int) (store : RTStore) :
    ∀ r : RefreshToken, r ∈ cleanupExpiredTokens now store ↔
      (r ∈ store ∧ ¬(r.expiresAt < now)) := by
  intro r
  unfold cleanupExpiredTokens
  rw [List.mem_filter]
  constructor
  · rintro ⟨h1, h2⟩
    exact ⟨h1, by simpa using h2⟩
  · rintro ⟨h1, h2⟩
    exact ⟨h1, by simpa using h2⟩

/-- C5 (the code as shipped): the Google OAuth callback handler resolves or
creates the user but then redirects with the access token embedded as the
`?token=` URL parameter, sets no `refreshToken` cookie, and leaves the
refresh-token store untouched — the behaviour the repository's own
controller tests reject in favour of the cookie-based flow. -/
theorem googleAuthRedirect_token_in_url :
    (googleAuthRedirect ⟨"oauth-at", "test@gmail.com", "Test", "User", "pic"⟩
        [] [] 1 0 "http://localhost:3000").1.refreshCookie = none ∧
    (googleAuthRedirect ⟨"oauth-at", "test@gmail.com", "Test", "User", "pic"⟩
        [] [] 1 0 "http://localhost:3000").1.tokenInUrl =
      some (createTokenForUser
        (createOAuthUser ⟨"oauth-at", "test@gmail.com", "Test", "User", "pic"⟩ 1)
        0).accessToken ∧
    (googleAuthRedirect ⟨"oauth-at", "test@gmail.com", "Test", "User", "pic"⟩
        [] [] 1 0 "http://localhost:3000").1.redirectBase =
      "http://localhost:3000/authenticated" ∧
    (googleAuthRedirect ⟨"oauth-at", "test@gmail.com", "Test", "User", "pic"⟩
        [] [] 1 0 "http://localhost:3000").2.2 = ([] : RTStore) := by
  exact ⟨rfl, rfl, rfl, rfl⟩

end Oalr
